import Mathlib

/-!
Shallow embedding of the wage comparison engine of the H1B Wages
Visualization repository, taken from
`app/api/analyze/route.ts` (functions `toAnnual`, `toHourly`, and the
table construction inside the `POST` handler).

JavaScript numbers are modelled by `JNum`: finite values are exact
rationals, and the IEEE special values `Infinity`, `-Infinity` and `NaN`
are explicit constructors, because the route divides by a level wage
with no zero guard and the resulting infinity flows into the status
classification.  The Firestore fetch is an external lookup: the engine
is modelled as a function of the request and of the fetched wage
document.
-/

namespace H1B

/-- A JavaScript number as used by the analyze route: finite values are
modelled exactly as rationals; the IEEE special values are explicit.
The sign of zero is not observable by any operation the route performs,
so negative zero is identified with zero. -/
inductive JNum where
  | num (q : ℚ)
  | posInf
  | negInf
  | nan
deriving DecidableEq

namespace JNum

/-- JavaScript multiplication. -/
def jmul : JNum → JNum → JNum
  | nan, _ => nan
  | _, nan => nan
  | num a, num b => num (a * b)
  | num a, posInf => if 0 < a then posInf else if a < 0 then negInf else nan
  | num a, negInf => if 0 < a then negInf else if a < 0 then posInf else nan
  | posInf, num b => if 0 < b then posInf else if b < 0 then negInf else nan
  | negInf, num b => if 0 < b then negInf else if b < 0 then posInf else nan
  | posInf, posInf => posInf
  | posInf, negInf => negInf
  | negInf, posInf => negInf
  | negInf, negInf => posInf

/-- JavaScript division.  Division of a nonzero finite value by zero
yields a signed infinity; `0 / 0` yields `NaN`. -/
def jdiv : JNum → JNum → JNum
  | nan, _ => nan
  | _, nan => nan
  | num a, num b =>
      if b = 0 then (if 0 < a then posInf else if a < 0 then negInf else nan)
      else num (a / b)
  | num _, posInf => num 0
  | num _, negInf => num 0
  | posInf, num b => if 0 ≤ b then posInf else negInf
  | negInf, num b => if 0 ≤ b then negInf else posInf
  | posInf, _ => nan
  | negInf, _ => nan

/-- JavaScript subtraction. -/
def jsub : JNum → JNum → JNum
  | nan, _ => nan
  | _, nan => nan
  | num a, num b => num (a - b)
  | num _, posInf => negInf
  | num _, negInf => posInf
  | posInf, num _ => posInf
  | negInf, num _ => negInf
  | posInf, posInf => nan
  | posInf, negInf => posInf
  | negInf, posInf => negInf
  | negInf, negInf => nan

/-- JavaScript comparison a < b (false whenever an operand is NaN). -/
def jlt : JNum → JNum → Bool
  | nan, _ => false
  | _, nan => false
  | num a, num b => decide (a < b)
  | num _, posInf => true
  | num _, negInf => false
  | posInf, _ => false
  | negInf, negInf => false
  | negInf, _ => true

/-- JavaScript comparison a >= b (false whenever an operand is NaN). -/
def jge : JNum → JNum → Bool
  | nan, _ => false
  | _, nan => false
  | num a, num b => decide (b ≤ a)
  | num _, posInf => false
  | num _, negInf => true
  | posInf, _ => true
  | negInf, negInf => true
  | negInf, _ => false

/-- JavaScript truthiness test for a number: 0 and NaN are falsy. -/
def falsy : JNum → Bool
  | num q => decide (q = 0)
  | nan => true
  | _ => false

/-- The JavaScript isNaN test. -/
def isNaNb : JNum → Bool
  | nan => true
  | _ => false

end JNum

open JNum

/-- Status literals of the route: "below" | "meets" | "exceeds". -/
inductive Status where
  | below
  | meets
  | exceeds
deriving DecidableEq

/-- Source: `function toAnnual(salary, mode)` — returns the salary
unchanged when mode is the string "annual", otherwise multiplies by the
assumed 2080 work hours per year. -/
def toAnnual (salary : JNum) (mode : String) : JNum :=
  if mode = "annual" then salary else jmul salary (JNum.num 2080)

/-- Source: `function toHourly(salaryAnnual)` — divides by 2080. -/
def toHourly (salaryAnnual : JNum) : JNum :=
  jdiv salaryAnnual (JNum.num 2080)

/-- One row of the response table, as built inside `levels.map` in the
`POST` handler. -/
structure Row where
  level : String
  annual_wage : JNum
  hourly_wage : JNum
  ratio : JNum
  status : Status
  toReachAnnual : JNum
deriving DecidableEq

/-- The status classification from the body of `levels.map`:
`if (ratio < 1) below; else if (ratio >= 1 && ratio < 1.1) meets;
else exceeds`. -/
def classify (r : JNum) : Status :=
  if jlt r (JNum.num 1) then Status.below
  else if jge r (JNum.num 1) && jlt r (JNum.num (11 / 10)) then Status.meets
  else Status.exceeds

/-- The row construction from the body of `levels.map` in the `POST`
handler: ratio, status, and `diffAnnual` (zero unless status is
"below"). -/
def mkRow (userSalaryAnnual : JNum) (key : String) (wageAnnual : JNum) : Row :=
  let ratio := jdiv userSalaryAnnual wageAnnual
  let status := classify ratio
  let diffAnnual := if status = Status.below then jsub wageAnnual userSalaryAnnual
    else JNum.num 0
  { level := key
    annual_wage := wageAnnual
    hourly_wage := toHourly wageAnnual
    ratio := ratio
    status := status
    toReachAnnual := diffAnnual }

/-- The request body after the coercions performed at the top of `POST`:
the three string filters are `string | undefined`, `salary_value` is the
result of `Number(body.salary_value)` (so a missing or non-numeric field
is NaN), and `mode` is the raw optional string before the
`|| "annual"` defaulting. -/
structure AnalyzeRequest where
  state : Option String
  county : Option String
  soc_code : Option String
  salary_value : JNum
  mode : Option String
deriving DecidableEq

/-- JavaScript truthiness for the optional string fields: undefined and
the empty string are falsy. -/
def strFalsy : Option String → Bool
  | none => true
  | some s => decide (s = "")

/-- Source: `const mode = (body.mode as "annual" | "hourly") || "annual"`
— a missing or empty mode falls back to "annual"; any other string is
kept as is. -/
def resolveMode : Option String → String
  | none => "annual"
  | some s => if s = "" then "annual" else s

/-- The validation test of `POST`:
`!state || !county || !soc_code || !salary_value || isNaN(salary_value)`. -/
def validationFails (r : AnalyzeRequest) : Bool :=
  strFalsy r.state || strFalsy r.county || strFalsy r.soc_code ||
    falsy r.salary_value || isNaNb r.salary_value

/-- The wage document fetched from the external store (the lookup
collaborator): the four annual level wages, already coerced to
numbers. -/
structure WageDoc where
  l1_wage : JNum
  l2_wage : JNum
  l3_wage : JNum
  l4_wage : JNum
deriving DecidableEq

/-- Source: the `levels` array of the `POST` handler, in its literal
L1→L4 order. -/
def levelsList (d : WageDoc) : List (String × JNum) :=
  [("L1", d.l1_wage), ("L2", d.l2_wage), ("L3", d.l3_wage), ("L4", d.l4_wage)]

/-- The parts of the JSON response that carry computed data: the
normalized salary figures from the `input` object, the `chart` object's
level labels and wage values, and the `table`. -/
structure AnalyzeResponse where
  salary_annual : JNum
  salary_hourly : JNum
  chartLevels : List String
  wagesAnnual : List JNum
  table : List Row
deriving DecidableEq

/-- The comparison engine of the `POST` handler, given the request body
and the fetched wage document: `none` models the 400 validation-error
response; otherwise the computed response is returned. -/
def analyze (r : AnalyzeRequest) (d : WageDoc) : Option AnalyzeResponse :=
  if validationFails r then none
  else
    let mode := resolveMode r.mode
    let userSalaryAnnual := toAnnual r.salary_value mode
    let table := (levelsList d).map (fun lvl => mkRow userSalaryAnnual lvl.1 lvl.2)
    some { salary_annual := userSalaryAnnual
           salary_hourly := toHourly userSalaryAnnual
           chartLevels := ["L1", "L2", "L3", "L4"]
           wagesAnnual := (levelsList d).map (fun lvl => lvl.2)
           table := table }

end H1B

namespace H1B

open JNum

/-! ### Basic evaluation lemmas for the JavaScript number model -/

lemma jmul_num (a b : ℚ) : jmul (JNum.num a) (JNum.num b) = JNum.num (a * b) := rfl

lemma jsub_num (a b : ℚ) : jsub (JNum.num a) (JNum.num b) = JNum.num (a - b) := rfl

lemma jdiv_num (a b : ℚ) (hb : b ≠ 0) :
    jdiv (JNum.num a) (JNum.num b) = JNum.num (a / b) := by
  simp [jdiv, hb]

lemma jdiv_num_zero_pos (a : ℚ) (ha : 0 < a) :
    jdiv (JNum.num a) (JNum.num 0) = JNum.posInf := by
  simp [jdiv, ha]

/-! ### The classification, characterized -/

lemma classify_num_spec (x : ℚ) :
    (classify (JNum.num x) = Status.below ↔ x < 1) ∧
    (classify (JNum.num x) = Status.meets ↔ 1 ≤ x ∧ x < 11 / 10) ∧
    (classify (JNum.num x) = Status.exceeds ↔ 11 / 10 ≤ x) := by
  simp only [classify, jlt, jge, Bool.and_eq_true, decide_eq_true_eq]
  split_ifs with h1 h2
  · exact ⟨iff_of_true rfl h1,
      iff_of_false (by decide) (fun hc => absurd h1 (not_lt.mpr hc.1)),
      iff_of_false (by decide) (fun hc => absurd h1 (not_lt.mpr (by linarith)))⟩
  · exact ⟨iff_of_false (by decide) h1, iff_of_true rfl h2,
      iff_of_false (by decide) (not_le.mpr h2.2)⟩
  · have hx : 1 ≤ x := not_lt.mp h1
    have hge : 11 / 10 ≤ x := not_lt.mp (fun hlt => h2 ⟨hx, hlt⟩)
    exact ⟨iff_of_false (by decide) h1, iff_of_false (by decide) h2,
      iff_of_true rfl hge⟩

lemma classify_posInf : classify JNum.posInf = Status.exceeds := rfl

/-! ### Row-level lemmas -/

lemma mkRow_level (userA wage : JNum) (key : String) :
    (mkRow userA key wage).level = key := rfl

lemma mkRow_annual_wage (userA wage : JNum) (key : String) :
    (mkRow userA key wage).annual_wage = wage := rfl

lemma mkRow_toReach (userA wage : JNum) (key : String) :
    (mkRow userA key wage).toReachAnnual =
      (if (mkRow userA key wage).status = Status.below
        then jsub wage userA else JNum.num 0) := rfl

lemma mkRow_num (u w : ℚ) (key : String) (hw : w ≠ 0) :
    mkRow (JNum.num u) key (JNum.num w) =
      { level := key
        annual_wage := JNum.num w
        hourly_wage := JNum.num (w / 2080)
        ratio := JNum.num (u / w)
        status := classify (JNum.num (u / w))
        toReachAnnual :=
          if classify (JNum.num (u / w)) = Status.below
            then JNum.num (w - u) else JNum.num 0 } := by
  have h2080 : (2080 : ℚ) ≠ 0 := by norm_num
  simp [mkRow, toHourly, jdiv_num _ _ hw, jdiv_num _ _ h2080, jsub_num]

lemma mkRow_status_spec (u w : ℚ) (key : String) (hw : 0 < w) :
    (mkRow (JNum.num u) key (JNum.num w)).ratio = JNum.num (u / w) ∧
    ((mkRow (JNum.num u) key (JNum.num w)).status = Status.below ↔ u / w < 1) ∧
    ((mkRow (JNum.num u) key (JNum.num w)).status = Status.meets ↔
      1 ≤ u / w ∧ u / w < 11 / 10) ∧
    ((mkRow (JNum.num u) key (JNum.num w)).status = Status.exceeds ↔ 11 / 10 ≤ u / w) := by
  rw [mkRow_num u w key hw.ne']
  exact ⟨rfl, (classify_num_spec (u / w)).1, (classify_num_spec (u / w)).2.1,
    (classify_num_spec (u / w)).2.2⟩

end H1B

namespace H1B

open JNum

/-! ### Analyze-level lemmas -/

lemma analyze_some (r : AnalyzeRequest) (d : WageDoc) (res : AnalyzeResponse)
    (h : analyze r d = some res) :
    validationFails r = false ∧
    res.salary_annual = toAnnual r.salary_value (resolveMode r.mode) ∧
    res.salary_hourly = toHourly (toAnnual r.salary_value (resolveMode r.mode)) ∧
    res.chartLevels = ["L1", "L2", "L3", "L4"] ∧
    res.table =
      [mkRow (toAnnual r.salary_value (resolveMode r.mode)) "L1" d.l1_wage,
       mkRow (toAnnual r.salary_value (resolveMode r.mode)) "L2" d.l2_wage,
       mkRow (toAnnual r.salary_value (resolveMode r.mode)) "L3" d.l3_wage,
       mkRow (toAnnual r.salary_value (resolveMode r.mode)) "L4" d.l4_wage] := by
  by_cases hv : validationFails r
  · simp [analyze, hv] at h
  · simp only [analyze, hv, Bool.false_eq_true, if_false, Option.some.injEq] at h
    subst h
    refine ⟨by simpa using hv, rfl, rfl, rfl, ?_⟩
    simp [levelsList]

lemma toAnnual_num_pos (s : ℚ) (hs : 0 < s) (mode : String) :
    ∃ u : ℚ, toAnnual (JNum.num s) mode = JNum.num u ∧ 0 < u := by
  unfold toAnnual
  split_ifs
  · exact ⟨s, rfl, hs⟩
  · exact ⟨s * 2080, rfl, by positivity⟩

/-! ### Concrete inputs used by the example scenarios of the spec -/

/-- The request of example scenario 1: salary 90000, annual mode. -/
def scenarioReq : AnalyzeRequest :=
  { state := some "Texas (TX)"
    county := some "Travis"
    soc_code := some "15-1252"
    salary_value := JNum.num 90000
    mode := some "annual" }

/-- The wage document of example scenario 1: levels 60000 / 80000 /
100000 / 120000. -/
def scenarioDoc : WageDoc :=
  { l1_wage := JNum.num 60000
    l2_wage := JNum.num 80000
    l3_wage := JNum.num 100000
    l4_wage := JNum.num 120000 }

/-- Scenario 1, row L1: ratio 3/2, exceeds. -/
def scenarioRowL1 : Row :=
  { level := "L1", annual_wage := JNum.num 60000, hourly_wage := JNum.num (375 / 13),
    ratio := JNum.num (3 / 2), status := Status.exceeds, toReachAnnual := JNum.num 0 }

/-- Scenario 1, row L2: ratio 9/8 = 1.125, exceeds. -/
def scenarioRowL2 : Row :=
  { level := "L2", annual_wage := JNum.num 80000, hourly_wage := JNum.num (500 / 13),
    ratio := JNum.num (9 / 8), status := Status.exceeds, toReachAnnual := JNum.num 0 }

/-- Scenario 1, row L3: ratio 9/10, below, 10000 to reach. -/
def scenarioRowL3 : Row :=
  { level := "L3", annual_wage := JNum.num 100000, hourly_wage := JNum.num (625 / 13),
    ratio := JNum.num (9 / 10), status := Status.below, toReachAnnual := JNum.num 10000 }

/-- Scenario 1, row L4: ratio 3/4, below, 30000 to reach. -/
def scenarioRowL4 : Row :=
  { level := "L4", annual_wage := JNum.num 120000, hourly_wage := JNum.num (750 / 13),
    ratio := JNum.num (3 / 4), status := Status.below, toReachAnnual := JNum.num 30000 }

/-- The full response for example scenario 1. -/
def scenarioRes : AnalyzeResponse :=
  { salary_annual := JNum.num 90000
    salary_hourly := JNum.num (1125 / 26)
    chartLevels := ["L1", "L2", "L3", "L4"]
    wagesAnnual := [JNum.num 60000, JNum.num 80000, JNum.num 100000, JNum.num 120000]
    table := [scenarioRowL1, scenarioRowL2, scenarioRowL3, scenarioRowL4] }

/-- The request of example scenario 4: salary 50000, annual mode. -/
def zeroReq : AnalyzeRequest :=
  { state := some "Texas (TX)"
    county := some "Travis"
    soc_code := some "15-1252"
    salary_value := JNum.num 50000
    mode := some "annual" }

/-- The wage document of example scenario 4: L1 wage is zero. -/
def zeroDoc : WageDoc :=
  { l1_wage := JNum.num 0
    l2_wage := JNum.num 80000
    l3_wage := JNum.num 100000
    l4_wage := JNum.num 120000 }

/-- What the code actually returns on scenario 4: the L1 row carries
ratio Infinity and status "exceeds" — no error marker of any kind —
while L2–L4 compute normally. -/
def zeroRes : AnalyzeResponse :=
  { salary_annual := JNum.num 50000
    salary_hourly := JNum.num (625 / 26)
    chartLevels := ["L1", "L2", "L3", "L4"]
    wagesAnnual := [JNum.num 0, JNum.num 80000, JNum.num 100000, JNum.num 120000]
    table :=
      [ { level := "L1", annual_wage := JNum.num 0, hourly_wage := JNum.num 0,
          ratio := JNum.posInf, status := Status.exceeds, toReachAnnual := JNum.num 0 },
        { level := "L2", annual_wage := JNum.num 80000, hourly_wage := JNum.num (500 / 13),
          ratio := JNum.num (5 / 8), status := Status.below, toReachAnnual := JNum.num 30000 },
        { level := "L3", annual_wage := JNum.num 100000, hourly_wage := JNum.num (625 / 13),
          ratio := JNum.num (1 / 2), status := Status.below, toReachAnnual := JNum.num 50000 },
        { level := "L4", annual_wage := JNum.num 120000, hourly_wage := JNum.num (750 / 13),
          ratio := JNum.num (5 / 12), status := Status.below, toReachAnnual := JNum.num 70000 } ] }

/-- The request of example scenario 3: salary -5, annual mode. -/
def negReq : AnalyzeRequest :=
  { state := some "Texas (TX)"
    county := some "Travis"
    soc_code := some "15-1252"
    salary_value := JNum.num (-5)
    mode := some "annual" }

end H1B

namespace H1B

open JNum

/-- Evaluation of the engine on example scenario 1, shared by several
witnesses below. -/
lemma analyze_scenario : analyze scenarioReq scenarioDoc = some scenarioRes := by
  norm_num [analyze, scenarioReq, scenarioDoc, scenarioRes, scenarioRowL1, scenarioRowL2,
    scenarioRowL3, scenarioRowL4, validationFails, strFalsy, falsy, isNaNb, resolveMode,
    toAnnual, toHourly, levelsList, mkRow, jdiv, jmul, jsub, jlt, jge, classify]
  decide

/-- Claim C7: on levels 60000 / 80000 / 100000 / 120000 with an annual
salary of 90000, the comparison returns ratios 3/2, 9/8, 9/10, 3/4,
statuses exceeds / exceeds / below / below, and amounts to reach
0 / 0 / 10000 / 30000, for L1 through L4 respectively. -/
theorem scenario_one_eval : analyze scenarioReq scenarioDoc = some scenarioRes :=
  analyze_scenario

/-- Claim C3: what the code actually does when the L1 wage is zero and the
salary is 50000 annual: no guard error is produced; the L1 row is computed
with ratio Infinity and status "exceeds" (amount to reach 0), while the
L2 to L4 rows compute normally as "below" with their usual ratios and
amounts. -/
theorem zero_level_wage_eval : analyze zeroReq zeroDoc = some zeroRes := by
  norm_num [analyze, zeroReq, zeroDoc, zeroRes, validationFails, strFalsy, falsy, isNaNb,
    resolveMode, toAnnual, toHourly, levelsList, mkRow, jdiv, jmul, jsub, jlt, jge, classify]
  decide

/-- Claim C9: the engine is deterministic — two invocations on identical
request and document inputs return identical results; the computation is
a pure function of its inputs with no retained state. -/
theorem analyze_deterministic (r1 r2 : AnalyzeRequest) (d1 d2 : WageDoc)
    (hr : r1 = r2) (hd : d1 = d2) : analyze r1 d1 = analyze r2 d2 := by
  rw [hr, hd]

theorem analyze_deterministic_witness :
    analyze scenarioReq scenarioDoc = analyze scenarioReq scenarioDoc :=
  analyze_deterministic scenarioReq scenarioReq scenarioDoc scenarioDoc rfl rfl

/-- Claim C8: every successful comparison lists its rows in the fixed
order L1, L2, L3, L4 (and the chart labels likewise), for any input level
magnitudes — the output is never re-sorted. -/
theorem row_order_fixed (r : AnalyzeRequest) (d : WageDoc) (res : AnalyzeResponse)
    (hres : analyze r d = some res) :
    res.table.map Row.level = ["L1", "L2", "L3", "L4"] ∧
    res.chartLevels = ["L1", "L2", "L3", "L4"] := by
  obtain ⟨-, -, -, hch, htab⟩ := analyze_some r d res hres
  exact ⟨by simp [htab, mkRow_level], hch⟩

theorem row_order_fixed_witness :
    scenarioRes.table.map Row.level = ["L1", "L2", "L3", "L4"] ∧
    scenarioRes.chartLevels = ["L1", "L2", "L3", "L4"] :=
  row_order_fixed scenarioReq scenarioDoc scenarioRes analyze_scenario

/-- Claim C5: toAnnual returns the value unchanged in annual mode and
multiplies by 2080 in hourly mode, exactly and with no rounding, and
toHourly divides by 2080. -/
theorem conversion_defs (v a : ℚ) :
    toAnnual (JNum.num v) "annual" = JNum.num v ∧
    toAnnual (JNum.num v) "hourly" = JNum.num (v * 2080) ∧
    toHourly (JNum.num a) = JNum.num (a / 2080) := by
  have hm : ("hourly" : String) ≠ "annual" := by decide
  refine ⟨by simp [toAnnual], by simp [toAnnual, hm, jmul_num], ?_⟩
  rw [toHourly, jdiv_num a 2080 (by norm_num)]

/-- Claim C10: a missing or empty mode string defaults to "annual" (the
salary is used unchanged as the annual figure), and toAnnual multiplies by
2080 for every mode string other than exactly "annual" — an unrecognized
mode is silently treated as hourly. -/
theorem mode_defaulting (q : ℚ) (m : String) (hm : m ≠ "annual") :
    resolveMode none = "annual" ∧ resolveMode (some "") = "annual" ∧
    toAnnual (JNum.num q) (resolveMode none) = JNum.num q ∧
    toAnnual (JNum.num q) m = JNum.num (q * 2080) := by
  refine ⟨rfl, by simp [resolveMode], by simp [resolveMode, toAnnual], ?_⟩
  simp [toAnnual, hm, jmul_num]

theorem mode_defaulting_witness :
    resolveMode none = "annual" ∧ resolveMode (some "") = "annual" ∧
    toAnnual (JNum.num 10) (resolveMode none) = JNum.num 10 ∧
    toAnnual (JNum.num 10) "weekly" = JNum.num (10 * 2080) :=
  mode_defaulting 10 "weekly" (by decide)

end H1B

namespace H1B

open JNum

/-- Claim C4, counterexample: the second round-trip identity as the spec
states it, `toAnnual(toHourly(x), "annual") == x`, fails at x = 2080:
toHourly gives 1, and toAnnual in annual mode returns it unchanged. -/
theorem annual_round_trip_fails :
    (0 : ℚ) ≤ 2080 ∧
    toAnnual (toHourly (JNum.num 2080)) "annual" = JNum.num 1 ∧
    JNum.num 1 ≠ JNum.num 2080 := by
  refine ⟨by norm_num, ?_, by norm_num⟩
  rw [toHourly, jdiv_num 2080 2080 (by norm_num)]
  norm_num [toAnnual]

/-- Claim C4, amended: for every x ≥ 0 the conversions are mutual
inverses when the converted value is taken back through the opposite
conversion — `toHourly(toAnnual(x, "hourly")) == x` and
`toAnnual(toHourly(x), "hourly") == x` — exactly, over the rationals. -/
theorem conversion_round_trip (x : ℚ) (hx : 0 ≤ x) :
    toHourly (toAnnual (JNum.num x) "hourly") = JNum.num x ∧
    toAnnual (toHourly (JNum.num x)) "hourly" = JNum.num x := by
  have hm : ("hourly" : String) ≠ "annual" := by decide
  have h2080 : (2080 : ℚ) ≠ 0 := by norm_num
  constructor
  · rw [toAnnual, if_neg hm, jmul_num, toHourly, jdiv_num _ _ h2080]
    congr 1
    field_simp
  · rw [toHourly, jdiv_num _ _ h2080, toAnnual, if_neg hm, jmul_num]
    congr 1
    field_simp

theorem conversion_round_trip_witness :
    toHourly (toAnnual (JNum.num 3) "hourly") = JNum.num 3 ∧
    toAnnual (toHourly (JNum.num 3)) "hourly" = JNum.num 3 :=
  conversion_round_trip 3 (by norm_num)

/-- Claim C2, counterexample: a negative salary of -5 in annual mode is
not rejected — the validation test passes and a comparison result is
produced. -/
theorem negative_salary_accepted :
    negReq.salary_value = JNum.num (-5) ∧
    validationFails negReq = false ∧
    analyze negReq scenarioDoc ≠ none := by
  refine ⟨rfl, by decide, ?_⟩
  have hv : validationFails negReq = false := by decide
  simp [analyze, hv]

/-- Claim C2, amended: with the three string filters present and
non-empty, the request is rejected with a validation error exactly when
the coerced salary value is NaN (missing or non-numeric) or zero;
negative salaries pass validation, and the level wages are never
validated. -/
theorem validation_exactly_falsy_salary (r : AnalyzeRequest) (d : WageDoc)
    (hst : strFalsy r.state = false) (hco : strFalsy r.county = false)
    (hso : strFalsy r.soc_code = false) :
    (analyze r d = none ↔ r.salary_value = JNum.nan ∨ r.salary_value = JNum.num 0) := by
  have hval : validationFails r = (falsy r.salary_value || isNaNb r.salary_value) := by
    simp [validationFails, hst, hco, hso]
  cases hs : r.salary_value with
  | num q =>
      by_cases hq : q = 0
      · subst hq
        have hvt : validationFails r = true := by rw [hval, hs]; simp [falsy]
        simp [analyze, hvt, hs]
      · have hvf : validationFails r = false := by
          rw [hval, hs]; simp [falsy, isNaNb, hq]
        simp [analyze, hvf, hs, hq]
  | posInf =>
      have hvf : validationFails r = false := by rw [hval, hs]; simp [falsy, isNaNb]
      simp [analyze, hvf, hs]
  | negInf =>
      have hvf : validationFails r = false := by rw [hval, hs]; simp [falsy, isNaNb]
      simp [analyze, hvf, hs]
  | nan =>
      have hvt : validationFails r = true := by rw [hval, hs]; simp [falsy, isNaNb]
      simp [analyze, hvt, hs]

/-- The request of a zero-salary variant of scenario 3, used as witness
input. -/
def zeroSalReq : AnalyzeRequest :=
  { state := some "Texas (TX)"
    county := some "Travis"
    soc_code := some "15-1252"
    salary_value := JNum.num 0
    mode := some "annual" }

theorem validation_exactly_falsy_salary_witness :
    (analyze zeroSalReq scenarioDoc = none ↔
      zeroSalReq.salary_value = JNum.nan ∨ zeroSalReq.salary_value = JNum.num 0) :=
  validation_exactly_falsy_salary zeroSalReq scenarioDoc (by decide) (by decide) (by decide)

end H1B

namespace H1B

open JNum

/-- Claim C1: in every successful comparison, every row whose level wage w
is positive carries ratio u / w (u the normalized annual salary), and its
status follows Policy A: below iff ratio < 1, meets iff 1 ≤ ratio < 1.1,
exceeds iff ratio ≥ 1.1 — so ratio exactly 1 gives meets and ratio exactly
11/10 gives exceeds. -/
theorem policyA_classification (r : AnalyzeRequest) (d : WageDoc) (res : AnalyzeResponse)
    (hres : analyze r d = some res) :
    ∀ row ∈ res.table, ∀ u w : ℚ,
      res.salary_annual = JNum.num u → row.annual_wage = JNum.num w → 0 < w →
      row.ratio = JNum.num (u / w) ∧
      (row.status = Status.below ↔ u / w < 1) ∧
      (row.status = Status.meets ↔ 1 ≤ u / w ∧ u / w < 11 / 10) ∧
      (row.status = Status.exceeds ↔ 11 / 10 ≤ u / w) := by
  obtain ⟨-, hsal, -, -, htab⟩ := analyze_some r d res hres
  intro row hrow u w hu hw hwpos
  have huser : toAnnual r.salary_value (resolveMode r.mode) = JNum.num u :=
    hsal.symm.trans hu
  rw [htab, huser] at hrow
  simp only [List.mem_cons, List.not_mem_nil, or_false] at hrow
  rcases hrow with h | h | h | h <;>
    (subst h
     rw [mkRow_annual_wage] at hw
     rw [hw]
     exact mkRow_status_spec u w _ hwpos)

theorem policyA_classification_witness :
    scenarioRowL1.ratio = JNum.num (90000 / 60000) ∧
    (scenarioRowL1.status = Status.below ↔ (90000 : ℚ) / 60000 < 1) ∧
    (scenarioRowL1.status = Status.meets ↔
      1 ≤ (90000 : ℚ) / 60000 ∧ (90000 : ℚ) / 60000 < 11 / 10) ∧
    (scenarioRowL1.status = Status.exceeds ↔ 11 / 10 ≤ (90000 : ℚ) / 60000) :=
  policyA_classification scenarioReq scenarioDoc scenarioRes analyze_scenario
    scenarioRowL1 (by simp [scenarioRes]) 90000 60000 rfl rfl (by norm_num)

/-- Row-level amount-to-reach facts for a positive salary and a
non-negative wage: the gap is wage minus salary exactly on "below" rows,
zero on the others, and never negative. -/
lemma mkRow_toReach_spec (u w : ℚ) (key : String) (hu : 0 < u) (hw : 0 ≤ w) :
    ((mkRow (JNum.num u) key (JNum.num w)).status = Status.below →
      (mkRow (JNum.num u) key (JNum.num w)).toReachAnnual =
        jsub (mkRow (JNum.num u) key (JNum.num w)).annual_wage (JNum.num u)) ∧
    ((mkRow (JNum.num u) key (JNum.num w)).status = Status.meets ∨
      (mkRow (JNum.num u) key (JNum.num w)).status = Status.exceeds →
      (mkRow (JNum.num u) key (JNum.num w)).toReachAnnual = JNum.num 0) ∧
    ∃ q : ℚ, (mkRow (JNum.num u) key (JNum.num w)).toReachAnnual = JNum.num q ∧ 0 ≤ q := by
  rcases eq_or_lt_of_le hw with hw0 | hwpos
  · subst hw0
    have hstatus : (mkRow (JNum.num u) key (JNum.num 0)).status = Status.exceeds := by
      simp [mkRow, jdiv_num_zero_pos u hu, classify_posInf]
    have hreach : (mkRow (JNum.num u) key (JNum.num 0)).toReachAnnual = JNum.num 0 := by
      simp [mkRow, jdiv_num_zero_pos u hu, classify_posInf]
    rw [hstatus, hreach]
    exact ⟨fun hc => absurd hc (by decide), fun _ => rfl, ⟨0, rfl, le_refl 0⟩⟩
  · have hstatus : (mkRow (JNum.num u) key (JNum.num w)).status =
        classify (JNum.num (u / w)) := by
      rw [mkRow_num u w key hwpos.ne']
    have hreach : (mkRow (JNum.num u) key (JNum.num w)).toReachAnnual =
        (if classify (JNum.num (u / w)) = Status.below
          then JNum.num (w - u) else JNum.num 0) := by
      rw [mkRow_num u w key hwpos.ne']
    have hwage : (mkRow (JNum.num u) key (JNum.num w)).annual_wage = JNum.num w :=
      mkRow_annual_wage _ _ _
    rw [hstatus, hreach, hwage]
    by_cases hb : u / w < 1
    · have hst : classify (JNum.num (u / w)) = Status.below :=
        (classify_num_spec (u / w)).1.mpr hb
      have hlt : u < w := by
        have := (div_lt_one hwpos).mp hb
        linarith
      rw [hst]
      refine ⟨fun _ => by simp [jsub_num], ?_, ⟨w - u, by simp, by linarith⟩⟩
      rintro (hme | hme) <;> exact absurd hme (by decide)
    · have hst : classify (JNum.num (u / w)) ≠ Status.below := fun hc =>
        hb ((classify_num_spec (u / w)).1.mp hc)
      rw [if_neg hst]
      exact ⟨fun hc => absurd hc hst, fun _ => rfl, ⟨0, rfl, le_refl 0⟩⟩

/-- Claim C6: in every successful comparison with positive salary and
non-negative level wages, every row's amount to reach is the level wage
minus the normalized salary exactly when the row is "below", is zero when
the row "meets" or "exceeds", and is never negative. -/
theorem amount_to_reach_spec (r : AnalyzeRequest) (d : WageDoc) (res : AnalyzeResponse)
    (s w1 w2 w3 w4 : ℚ)
    (hres : analyze r d = some res)
    (hs : r.salary_value = JNum.num s) (hspos : 0 < s)
    (h1 : d.l1_wage = JNum.num w1) (h2 : d.l2_wage = JNum.num w2)
    (h3 : d.l3_wage = JNum.num w3) (h4 : d.l4_wage = JNum.num w4)
    (h1n : 0 ≤ w1) (h2n : 0 ≤ w2) (h3n : 0 ≤ w3) (h4n : 0 ≤ w4) :
    ∀ row ∈ res.table,
      (row.status = Status.below →
        row.toReachAnnual = jsub row.annual_wage res.salary_annual) ∧
      (row.status = Status.meets ∨ row.status = Status.exceeds →
        row.toReachAnnual = JNum.num 0) ∧
      ∃ q : ℚ, row.toReachAnnual = JNum.num q ∧ 0 ≤ q := by
  obtain ⟨-, hsal, -, -, htab⟩ := analyze_some r d res hres
  obtain ⟨u, hu, hupos⟩ := toAnnual_num_pos s hspos (resolveMode r.mode)
  rw [hs, hu] at hsal htab
  intro row hrow
  rw [htab] at hrow
  rw [hsal]
  simp only [List.mem_cons, List.not_mem_nil, or_false] at hrow
  rcases hrow with h | h | h | h
  · subst h; rw [h1]; exact mkRow_toReach_spec u w1 "L1" hupos h1n
  · subst h; rw [h2]; exact mkRow_toReach_spec u w2 "L2" hupos h2n
  · subst h; rw [h3]; exact mkRow_toReach_spec u w3 "L3" hupos h3n
  · subst h; rw [h4]; exact mkRow_toReach_spec u w4 "L4" hupos h4n

theorem amount_to_reach_spec_witness :
    (scenarioRowL3.status = Status.below →
      scenarioRowL3.toReachAnnual = jsub scenarioRowL3.annual_wage scenarioRes.salary_annual) ∧
    (scenarioRowL3.status = Status.meets ∨ scenarioRowL3.status = Status.exceeds →
      scenarioRowL3.toReachAnnual = JNum.num 0) ∧
    ∃ q : ℚ, scenarioRowL3.toReachAnnual = JNum.num q ∧ 0 ≤ q :=
  amount_to_reach_spec scenarioReq scenarioDoc scenarioRes 90000 60000 80000 100000 120000
    analyze_scenario rfl (by norm_num) rfl rfl rfl rfl (by norm_num) (by norm_num)
    (by norm_num) (by norm_num) scenarioRowL3 (by simp [scenarioRes])

end H1B
